import Mathlib

/-!
Verification development for the personal-box FreeRTOS demo's protocol core:
the shadow synchronization engine (`prvUpdateDeltaHandler` in
`src/src/shadow_client.c`), the publish/acknowledgment cycle
(`publishCurrentStateTask`), the wire-document serialization
(`SHADOW_REPORTED_JSON` / `SHADOW_DESIRED_JSON`), and the connectivity
manager's state-change handler (`_onNetworkStateChangeCallback` in
`src/src/app_network.c`).

State that lives in C globals is made explicit as record types; each handler
becomes a pure function from its inputs and the pre-state to the post-state
plus a list of observable events (task notifications, published documents,
semaphore operations, callback invocations).
-/

/-! ## Shadow synchronization engine (shadow_client.c) -/

/-- Wire value of an open lock (`LOCK_STATE_OPEN` in shadow_client.c). -/
def LOCK_STATE_OPEN : Nat := 1

/-- Wire value of a closed lock (`LOCK_STATE_CLOSE` in shadow_client.c). -/
def LOCK_STATE_CLOSE : Nat := 0

/-- The state touched by the delta handler: the static `ulCurrentVersion`
counter inside `prvUpdateDeltaHandler`, and the file-scope globals
`ulCurrentLockState`, `stateChanged` and `xUpdateDeltaReturn`
(`updateDeltaFail = true` models `xUpdateDeltaReturn == pdFAIL`). -/
structure ShadowState where
  ulCurrentVersion : Nat
  ulCurrentLockState : Nat
  stateChanged : Bool
  updateDeltaFail : Bool
  deriving DecidableEq

/-- Abstraction of an incoming `/update/delta` payload, as seen through the
JSON library calls made by `prvUpdateDeltaHandler`:
`validJson` is the outcome of `JSON_Validate`;
`versionField` is `some v` when `JSON_Search "version"` succeeds and the
pointed-to text parses (via `strtoul`) to `v`, `none` when the search fails;
`lockStateField` likewise for `JSON_Search "state.lockState"`. -/
structure DeltaMsg where
  validJson : Bool
  versionField : Option Nat
  lockStateField : Option Nat
  deriving DecidableEq

/-- The tail of `prvUpdateDeltaHandler` (shadow_client.c lines 266-285): given
the integer `ulNewState` parsed from `pcOutValue`, mutate
`ulCurrentLockState` and set `stateChanged` when it differs from the current
value, and return whether `xTaskNotifyGive(actuatorHandle)` fired (it fires
exactly when the new value equals `LOCK_STATE_OPEN`). -/
def applyNewState (ulNewState : Nat) (s : ShadowState) : ShadowState × Bool :=
  if ulNewState ≠ s.ulCurrentLockState then
    ({ s with ulCurrentLockState := ulNewState, stateChanged := true },
     ulNewState == LOCK_STATE_OPEN)
  else
    (s, false)

/-- Model of `prvUpdateDeltaHandler` (shadow_client.c lines 202-290).
Returns the post-state and whether the actuator task was notified.

Control flow mirrors the C `result`/`pcOutValue` data flow:
* `versionExtracted` is `result == JSONSuccess` after the `JSON_Validate`
  and `JSON_Search("version")` steps; on that path `ulVersion` holds the
  parsed version, otherwise `ulVersion` keeps its `0` initializer.
* When `ulVersion > ulCurrentVersion` the version is bumped and
  `JSON_Search("state.lockState")` runs; its result drives the final block.
* When the version gate rejects the delta, the C code only logs: `result`
  still holds the success from the version lookup and `pcOutValue` still
  points at the version text, so the final block re-parses the version value
  as the new lock state (`applyNewState ulVersion s`).
* Whenever the final block sees a failed `result`, it sets
  `xUpdateDeltaReturn = pdFAIL`. -/
def prvUpdateDeltaHandler (msg : DeltaMsg) (s : ShadowState) : ShadowState × Bool :=
  let versionExtracted := msg.validJson && msg.versionField.isSome
  let ulVersion := if versionExtracted then msg.versionField.getD 0 else 0
  if s.ulCurrentVersion < ulVersion then
    let s1 := { s with ulCurrentVersion := ulVersion }
    match msg.lockStateField with
    | some ulNewState => applyNewState ulNewState s1
    | none => ({ s1 with updateDeltaFail := true }, false)
  else
    if versionExtracted then
      applyNewState ulVersion s
    else
      ({ s with updateDeltaFail := true }, false)

/-- The value the final block of `prvUpdateDeltaHandler` would parse out of
`pcOutValue` when its `result` check succeeds: the `state.lockState` field on
the accepted-version path, the re-parsed `version` value on the
stale-version path, nothing when no lookup succeeded. -/
def deltaObservedState (msg : DeltaMsg) (s : ShadowState) : Option Nat :=
  let versionExtracted := msg.validJson && msg.versionField.isSome
  let ulVersion := if versionExtracted then msg.versionField.getD 0 else 0
  if s.ulCurrentVersion < ulVersion then
    msg.lockStateField
  else
    if versionExtracted then some ulVersion else none

/-- Claim C1. The claim states that a delta whose version is at most the
last-accepted version is discarded without mutating `LockState`, without
setting the pending-change flag, and without signaling the actuator. The code
violates this: on the stale path the `result` flag and `pcOutValue` pointer
left over from the successful `version` lookup flow into the final block, so
the handler re-parses the version text as a lock state. Concretely, with
last-accepted version 5 and lock state 0, the stale delta
`version = 3, state.lockState = 1` sets `ulCurrentLockState := 3` (the
version number!) and `stateChanged := true`; likewise processing the same
delta `version = 2, state.lockState = 1` twice from the initial state
mutates the state on both calls, ending with `ulCurrentLockState = 2`. -/
theorem prvUpdateDeltaHandler_stale_delta_mutates :
    prvUpdateDeltaHandler ⟨true, some 3, some 1⟩ ⟨5, 0, false, false⟩ =
      (⟨5, 3, true, false⟩, false)
    ∧ prvUpdateDeltaHandler ⟨true, some 2, some 1⟩ ⟨0, 0, false, false⟩ =
      (⟨2, 1, true, false⟩, true)
    ∧ prvUpdateDeltaHandler ⟨true, some 2, some 1⟩ ⟨2, 1, true, false⟩ =
      (⟨2, 2, true, false⟩, false) := by
  refine ⟨rfl, rfl, rfl⟩

/-- Claim C2. On a delta whose version strictly exceeds the last-accepted
version, the handler first advances `ulCurrentVersion` to the delta's version
and then extracts `state.lockState`; if that extraction fails it records the
error by setting `xUpdateDeltaReturn = pdFAIL`, the lock state and
pending-change flag are untouched, the actuator is not notified, and the
version stays advanced (the bump is not rolled back). -/
theorem prvUpdateDeltaHandler_version_advance_on_missing_lockState
    (msg : DeltaMsg) (s : ShadowState) (v : Nat)
    (hvalid : msg.validJson = true)
    (hver : msg.versionField = some v)
    (hgt : s.ulCurrentVersion < v)
    (hmiss : msg.lockStateField = none) :
    prvUpdateDeltaHandler msg s =
      (⟨v, s.ulCurrentLockState, s.stateChanged, true⟩, false) := by
  simp only [prvUpdateDeltaHandler, hvalid, hver, hmiss, Option.isSome_some,
    Bool.and_self, if_true, Option.getD_some]
  rw [if_pos hgt]

/-- Witness for C2 at a concrete input. -/
theorem prvUpdateDeltaHandler_version_advance_on_missing_lockState_witness :
    prvUpdateDeltaHandler ⟨true, some 7, none⟩ ⟨0, 0, false, false⟩ =
      (⟨7, 0, false, true⟩, false) :=
  prvUpdateDeltaHandler_version_advance_on_missing_lockState
    ⟨true, some 7, none⟩ ⟨0, 0, false, false⟩ 7 rfl rfl (by decide) rfl

/-- Claim C3. For a delta accepted by the version gate whose
`state.lockState` field decodes to `w`: if `w` equals the current lock state,
only the version counter changes (the pending-change flag and failure flag
keep their previous values and the actuator is not notified); if `w`
differs, the lock state becomes `w`, the pending-change flag is set, and the
actuator is notified exactly when `w = LOCK_STATE_OPEN = 1`. -/
theorem prvUpdateDeltaHandler_accepted_delta
    (msg : DeltaMsg) (s : ShadowState) (v w : Nat)
    (hvalid : msg.validJson = true)
    (hver : msg.versionField = some v)
    (hgt : s.ulCurrentVersion < v)
    (hlock : msg.lockStateField = some w) :
    prvUpdateDeltaHandler msg s =
      if w = s.ulCurrentLockState then
        (⟨v, s.ulCurrentLockState, s.stateChanged, s.updateDeltaFail⟩, false)
      else
        (⟨v, w, true, s.updateDeltaFail⟩, w == LOCK_STATE_OPEN) := by
  simp only [prvUpdateDeltaHandler, hvalid, hver, hlock, Option.isSome_some,
    Bool.and_self, if_true, Option.getD_some]
  rw [if_pos hgt]
  by_cases hw : w = s.ulCurrentLockState
  · simp [applyNewState, hw]
  · simp [applyNewState, hw]

/-- Witness for C3 at concrete inputs, covering both the idempotent no-op
case (same lock state, version 4) and the state-change case (new state Open,
version 9, actuator notified). -/
theorem prvUpdateDeltaHandler_accepted_delta_witness :
    prvUpdateDeltaHandler ⟨true, some 4, some 0⟩ ⟨1, 0, false, false⟩ =
      (⟨4, 0, false, false⟩, false)
    ∧ prvUpdateDeltaHandler ⟨true, some 9, some 1⟩ ⟨1, 0, false, false⟩ =
      (⟨9, 1, true, false⟩, true) := by
  have h1 := prvUpdateDeltaHandler_accepted_delta
    ⟨true, some 4, some 0⟩ ⟨1, 0, false, false⟩ 4 0 rfl rfl (by decide) rfl
  have h2 := prvUpdateDeltaHandler_accepted_delta
    ⟨true, some 9, some 1⟩ ⟨1, 0, false, false⟩ 9 1 rfl rfl (by decide) rfl
  exact ⟨by simpa using h1, by simpa using h2⟩

/-- Claim C4. If `JSON_Validate` fails, or the `version` field cannot be
extracted, the handler records the error (the failure flag is set) and the
lock state, version counter and pending-change flag are all unchanged; the
actuator is not notified. -/
theorem prvUpdateDeltaHandler_invalid_payload
    (msg : DeltaMsg) (s : ShadowState)
    (hbad : msg.validJson = false ∨ msg.versionField = none) :
    prvUpdateDeltaHandler msg s =
      (⟨s.ulCurrentVersion, s.ulCurrentLockState, s.stateChanged, true⟩, false) := by
  have hext : (msg.validJson && msg.versionField.isSome) = false := by
    rcases hbad with h | h <;> simp [h]
  simp [prvUpdateDeltaHandler, hext]

/-- Witness for C4 at concrete inputs: a payload failing validation, and a
valid payload with no version field. -/
theorem prvUpdateDeltaHandler_invalid_payload_witness :
    prvUpdateDeltaHandler ⟨false, some 3, some 1⟩ ⟨2, 1, false, false⟩ =
      (⟨2, 1, false, true⟩, false)
    ∧ prvUpdateDeltaHandler ⟨true, none, some 1⟩ ⟨2, 1, false, false⟩ =
      (⟨2, 1, false, true⟩, false) :=
  ⟨prvUpdateDeltaHandler_invalid_payload ⟨false, some 3, some 1⟩
      ⟨2, 1, false, false⟩ (Or.inl rfl),
   prvUpdateDeltaHandler_invalid_payload ⟨true, none, some 1⟩
      ⟨2, 1, false, false⟩ (Or.inr rfl)⟩

/-- Claim C10. The handler performs no validation of the decoded
`state.lockState` value against the `{Open = 1, Close = 0}` enumeration: on
an accepted delta any integer `w` differing from the current lock state is
stored verbatim, sets the pending-change flag, and notifies the actuator
exactly when `w = 1`. -/
theorem prvUpdateDeltaHandler_no_enum_validation
    (msg : DeltaMsg) (s : ShadowState) (v w : Nat)
    (hvalid : msg.validJson = true)
    (hver : msg.versionField = some v)
    (hgt : s.ulCurrentVersion < v)
    (hlock : msg.lockStateField = some w)
    (hdiff : w ≠ s.ulCurrentLockState) :
    prvUpdateDeltaHandler msg s =
      (⟨v, w, true, s.updateDeltaFail⟩, w == LOCK_STATE_OPEN) := by
  simp only [prvUpdateDeltaHandler, hvalid, hver, hlock, Option.isSome_some,
    Bool.and_self, if_true, Option.getD_some]
  rw [if_pos hgt]
  simp [applyNewState, hdiff]

/-- Witness for C10 at concrete out-of-range values 2 and 999: both are
stored verbatim with the pending flag set, and neither notifies the
actuator. -/
theorem prvUpdateDeltaHandler_no_enum_validation_witness :
    prvUpdateDeltaHandler ⟨true, some 3, some 2⟩ ⟨0, 0, false, false⟩ =
      (⟨3, 2, true, false⟩, false)
    ∧ prvUpdateDeltaHandler ⟨true, some 3, some 999⟩ ⟨0, 1, false, false⟩ =
      (⟨3, 999, true, false⟩, false) := by
  have h1 := prvUpdateDeltaHandler_no_enum_validation
    ⟨true, some 3, some 2⟩ ⟨0, 0, false, false⟩ 3 2 rfl rfl (by decide) rfl (by decide)
  have h2 := prvUpdateDeltaHandler_no_enum_validation
    ⟨true, some 3, some 999⟩ ⟨0, 1, false, false⟩ 3 999 rfl rfl (by decide) rfl (by decide)
  exact ⟨by simpa using h1, by simpa using h2⟩

/-! ## Wire-document serialization (SHADOW_REPORTED_JSON / SHADOW_DESIRED_JSON) -/

/-- Decimal digits of `n`, most significant first, computed with a structural
fuel argument so that concrete instances reduce in the kernel. This models
how `snprintf` renders a `%d`/`%lu` conversion. -/
def natToDecimalAux : Nat → Nat → List Char
  | 0, _ => []
  | fuel + 1, n =>
    if n < 10 then [Nat.digitChar n]
    else natToDecimalAux fuel (n / 10) ++ [Nat.digitChar (n % 10)]

/-- Decimal digit list of `n` (fuel `n + 1` always suffices). -/
def natToDecimal (n : Nat) : List Char := natToDecimalAux (n + 1) n

/-- Rendering of the `%01d` conversion applied to a lock state (minimum
width 1, i.e. the plain decimal form for the single-digit values used). -/
def natDecimalString (n : Nat) : String := String.mk (natToDecimal n)

/-- Rendering of the `%06lu` conversion applied to the client token: the
decimal form left-padded with zeros to a minimum width of 6. -/
def zeroPad6 (n : Nat) : String :=
  String.mk (List.replicate (6 - (natToDecimal n).length) '0' ++ natToDecimal n)

/-- The document produced by `snprintf` from `SHADOW_REPORTED_JSON`
(shadow_client.c lines 83-91):
`\x7b"state":\x7b"reported":\x7b"lockState":%01d\x7d\x7d,"clientToken":"%06lu"\x7d`. -/
def shadowReportedJson (lockState clientToken : Nat) : String :=
  "\x7b\"state\":\x7b\"reported\":\x7b\"lockState\":" ++ natDecimalString lockState
    ++ "\x7d\x7d,\"clientToken\":\"" ++ zeroPad6 clientToken ++ "\"\x7d"

/-- The document produced by `snprintf` from `SHADOW_DESIRED_JSON`
(shadow_client.c lines 54-65), with a desired and a reported lock state. -/
def shadowDesiredJson (desired reported clientToken : Nat) : String :=
  "\x7b\"state\":\x7b\"desired\":\x7b\"lockState\":" ++ natDecimalString desired
    ++ "\x7d,\"reported\":\x7b\"lockState\":" ++ natDecimalString reported
    ++ "\x7d\x7d,\"clientToken\":\"" ++ zeroPad6 clientToken ++ "\"\x7d"

/-! ## Publish/acknowledgment cycle (publishCurrentStateTask) -/

/-- The `LOCK_MQTT_PUBACK_WAIT_MS` acknowledgment timeout. -/
def LOCK_MQTT_PUBACK_WAIT_MS : Nat := 5000

/-- The globals written by `publishCurrentStateTask`: `ulCurrentLockState`
and `ulClientToken`. -/
structure PubState where
  ulCurrentLockState : Nat
  ulClientToken : Nat
  deriving DecidableEq

/-- External inputs consumed by one pass of the publish loop: the two
`xTaskGetTickCount()` samples used to generate client tokens, and whether
each `xSemaphoreTake(xPubAckWaitLock, ...)` obtained the puback semaphore
before the 5000 ms timeout. -/
structure PubEnv where
  tick1 : Nat
  tick2 : Nat
  ack1 : Bool
  ack2 : Bool
  deriving DecidableEq

/-- Observable actions of the publish loop body, in program order. -/
inductive PubEvent where
  /-- `ulTaskNotifyTake(pdTRUE, portMAX_DELAY)`: block until signaled. -/
  | blockForNotify
  /-- Assignment `ulClientToken = (xTaskGetTickCount() % 1000000)`. -/
  | setToken (t : Nat)
  /-- Assignment to `ulCurrentLockState`. -/
  | setLock (v : Nat)
  /-- `PublishToTopic` of a serialized update document. -/
  | publishDoc (doc : String)
  /-- `xSemaphoreTake(xPubAckWaitLock, pdMS_TO_TICKS ms)`; `ok` records
  whether the acknowledgment arrived before the timeout. -/
  | ackWait (ms : Nat) (ok : Bool)
  /-- `vTaskDelay(pdMS_TO_TICKS ms)`: the fixed dwell delay. -/
  | dwell (ms : Nat)
  deriving DecidableEq

/-- One pass of the `while (true)` loop of `publishCurrentStateTask`
(shadow_client.c lines 356-420): block for the wake notification, generate a
token and force the lock state open, publish the reported-only document,
wait up to 5000 ms for the puback, dwell 5000 ms, generate a new token and
set the lock state closed, publish the desired+reported document, wait up to
5000 ms for the puback. Returns the post-state of the globals and the event
trace of the pass. Both globals are overwritten unconditionally, so the
pre-state `_s` is not read. -/
def publishCurrentStateBody (env : PubEnv) (_s : PubState) : PubState × List PubEvent :=
  let t1 := env.tick1 % 1000000
  let s1 : PubState := ⟨LOCK_STATE_OPEN, t1⟩
  let doc1 := shadowReportedJson s1.ulCurrentLockState s1.ulClientToken
  let t2 := env.tick2 % 1000000
  let s2 : PubState := ⟨LOCK_STATE_CLOSE, t2⟩
  let doc2 := shadowDesiredJson s2.ulCurrentLockState s2.ulCurrentLockState s2.ulClientToken
  (s2,
   [PubEvent.blockForNotify, PubEvent.setToken t1, PubEvent.setLock s1.ulCurrentLockState,
    PubEvent.publishDoc doc1, PubEvent.ackWait LOCK_MQTT_PUBACK_WAIT_MS env.ack1,
    PubEvent.dwell 5000, PubEvent.setToken t2, PubEvent.setLock s2.ulCurrentLockState,
    PubEvent.publishDoc doc2, PubEvent.ackWait LOCK_MQTT_PUBACK_WAIT_MS env.ack2])

/-- Iteration of the publish loop: the task never exits its `while (true)`
loop, so a run over any number of wake-ups is the concatenation of the
per-pass traces. -/
def publishCurrentStateRun : List PubEnv → PubState → PubState × List PubEvent
  | [], s => (s, [])
  | env :: rest, s =>
    let r1 := publishCurrentStateBody env s
    let r2 := publishCurrentStateRun rest r1.1
    (r2.1, r1.2 ++ r2.2)

/-- The `ulCurrentLockState` assignments performed by a trace, in order. -/
def lockWrites (tr : List PubEvent) : List Nat :=
  tr.filterMap fun e =>
    match e with
    | PubEvent.setLock v => some v
    | _ => none

/-- Claim C5. Every pass of the publish cycle executes the fixed two-phase
sequence in order: block until signaled; set a fresh token (tick modulo
1000000) and force the lock state to Open; publish the reported-only
document; wait up to 5000 ms for the acknowledgment (the trace shape is the
same whether or not the acknowledgment arrives: no retry, no rollback);
dwell a fixed 5000 ms; set a new token and the lock state to Closed; publish
the desired+reported document with both fields Closed; wait up to 5000 ms
again. The loop never returns: a run over any list of wake-ups emits ten
events per pass, never stopping early. -/
theorem publishCurrentState_two_phase_cycle (env : PubEnv) (s : PubState)
    (envs : List PubEnv) :
    publishCurrentStateBody env s =
      (⟨LOCK_STATE_CLOSE, env.tick2 % 1000000⟩,
       [PubEvent.blockForNotify,
        PubEvent.setToken (env.tick1 % 1000000),
        PubEvent.setLock LOCK_STATE_OPEN,
        PubEvent.publishDoc (shadowReportedJson LOCK_STATE_OPEN (env.tick1 % 1000000)),
        PubEvent.ackWait 5000 env.ack1,
        PubEvent.dwell 5000,
        PubEvent.setToken (env.tick2 % 1000000),
        PubEvent.setLock LOCK_STATE_CLOSE,
        PubEvent.publishDoc
          (shadowDesiredJson LOCK_STATE_CLOSE LOCK_STATE_CLOSE (env.tick2 % 1000000)),
        PubEvent.ackWait 5000 env.ack2])
    ∧ (publishCurrentStateRun envs s).2.length = 10 * envs.length := by
  refine ⟨rfl, ?_⟩
  induction envs generalizing s with
  | nil => simp [publishCurrentStateRun]
  | cons e rest ih =>
    simp [publishCurrentStateRun, publishCurrentStateBody, ih, Nat.mul_succ]

/-! ## Client-token rendering lemmas -/

/-- Any value below `10 ^ k` renders to at most `k` decimal digits
(for any fuel; truncated fuel only shortens the output). -/
theorem natToDecimalAux_length_le (fuel : Nat) :
    ∀ n k : Nat, 1 ≤ k → n < 10 ^ k → (natToDecimalAux fuel n).length ≤ k := by
  induction fuel with
  | zero =>
    intro n k _ _
    simp [natToDecimalAux]
  | succ fuel ih =>
    intro n k hk hn
    by_cases h : n < 10
    · simpa [natToDecimalAux, h] using hk
    · match k, hk with
      | 1, _ =>
        exact absurd hn (by simpa using h)
      | (k' + 2), _ =>
        have hdiv : n / 10 < 10 ^ (k' + 1) := by
          rw [Nat.div_lt_iff_lt_mul (by norm_num : (0 : Nat) < 10)]
          calc n < 10 ^ (k' + 2) := hn
            _ = 10 ^ (k' + 1) * 10 := by rw [pow_succ]
        have hlen := ih (n / 10) (k' + 1) (Nat.le_add_left 1 k') hdiv
        simp only [natToDecimalAux, if_neg h, List.length_append, List.length_singleton]
        omega

/-- Every character emitted by the decimal renderer is a digit. -/
theorem natToDecimalAux_all_digits (fuel : Nat) :
    ∀ n : Nat, (natToDecimalAux fuel n).all Char.isDigit = true := by
  have hd : ∀ m, m < 10 → (Nat.digitChar m).isDigit = true := by decide
  induction fuel with
  | zero => intro n; rfl
  | succ fuel ih =>
    intro n
    by_cases h : n < 10
    · simp [natToDecimalAux, h, hd n h]
    · simp [natToDecimalAux, h, List.all_append, ih (n / 10),
        hd (n % 10) (Nat.mod_lt _ (by norm_num))]

/-- A run of padding zeros consists of digits. -/
theorem replicate_zero_all_digits :
    ∀ k : Nat, (List.replicate k '0').all Char.isDigit = true := by
  intro k
  induction k with
  | zero => rfl
  | succ k ih => simp [List.replicate_succ, ih]

/-- The `%06lu` rendering of a token below 1000000 is exactly 6 characters. -/
theorem zeroPad6_length (n : Nat) (h : n < 1000000) : (zeroPad6 n).length = 6 := by
  have hle : (natToDecimal n).length ≤ 6 := by
    have h6 : n < 10 ^ 6 := by norm_num [h]
    exact natToDecimalAux_length_le (n + 1) n 6 (by norm_num) h6
  show (List.replicate (6 - (natToDecimal n).length) '0' ++ natToDecimal n).length = 6
  simp [List.length_append, List.length_replicate]
  omega

/-- The `%06lu` rendering consists solely of decimal digits. -/
theorem zeroPad6_all_digits (n : Nat) :
    (zeroPad6 n).data.all Char.isDigit = true := by
  show (List.replicate (6 - (natToDecimal n).length) '0' ++ natToDecimal n).all
    Char.isDigit = true
  simp [List.all_append, replicate_zero_all_digits, natToDecimal,
    natToDecimalAux_all_digits]

/-- Claim C7. Each pass generates both client tokens as the sampled tick
counter modulo 1000000 (so each is below 1000000), and each is rendered in
the serialized documents as exactly 6 zero-padded decimal digits; the
post-state token equals the second sample modulo 1000000, and the two
`setToken` events in the trace carry exactly these values. -/
theorem clientToken_mod_and_six_digit_rendering (env : PubEnv) (s : PubState) :
    (publishCurrentStateBody env s).1.ulClientToken = env.tick2 % 1000000
    ∧ env.tick1 % 1000000 < 1000000
    ∧ env.tick2 % 1000000 < 1000000
    ∧ (zeroPad6 (env.tick1 % 1000000)).length = 6
    ∧ (zeroPad6 (env.tick2 % 1000000)).length = 6
    ∧ (zeroPad6 (env.tick1 % 1000000)).data.all Char.isDigit = true
    ∧ (zeroPad6 (env.tick2 % 1000000)).data.all Char.isDigit = true
    ∧ (publishCurrentStateBody env s).2.get? 1 =
        some (PubEvent.setToken (env.tick1 % 1000000))
    ∧ (publishCurrentStateBody env s).2.get? 6 =
        some (PubEvent.setToken (env.tick2 % 1000000)) := by
  have h1 : env.tick1 % 1000000 < 1000000 := Nat.mod_lt _ (by norm_num)
  have h2 : env.tick2 % 1000000 < 1000000 := Nat.mod_lt _ (by norm_num)
  exact ⟨rfl, h1, h2, zeroPad6_length _ h1, zeroPad6_length _ h2,
    zeroPad6_all_digits _, zeroPad6_all_digits _, rfl, rfl⟩

/-! ## Document field re-extraction (round-trip check) -/

/-- The double-quote character, written by code point to keep character
literals simple. -/
def quoteChar : Char := Char.ofNat 34

/-- Consume `key` from the front of `cs`; return the remainder on a match. -/
def dropKey : List Char → List Char → Option (List Char)
  | [], cs => some cs
  | _ :: _, [] => none
  | k :: ks, c :: cs => if k = c then dropKey ks cs else none

/-- Find the first occurrence of `key` in a character list and return the
text following it. -/
def findKey (key : List Char) : List Char → Option (List Char)
  | [] => dropKey key []
  | c :: cs =>
    match dropKey key (c :: cs) with
    | some rest => some rest
    | none => findKey key cs

/-- Longest digit run at the front of a character list. -/
def takeDigits : List Char → List Char
  | [] => []
  | c :: cs => if c.isDigit then c :: takeDigits cs else []

/-- Value of a most-significant-first digit list. -/
def digitsToNat (ds : List Char) : Nat :=
  ds.foldl (fun a c => a * 10 + (c.toNat - 48)) 0

/-- Modelled from the spec: the integer-field lookup of the external JSON
library (`JSON_Search` of coreJSON, consumed but not contained in this
repository) used by the round-trip property of section 8 — locate the key
text and parse the numeric value that follows it. -/
def extractNumberAfter (key doc : String) : Option Nat :=
  match findKey key.data doc.data with
  | some rest =>
    let ds := takeDigits rest
    if ds = [] then none else some (digitsToNat ds)
  | none => none

/-- Modelled from the spec: the string-field lookup of the external JSON
library used by the round-trip property of section 8 — locate the key text
(including its opening quote) and take the value up to the closing quote. -/
def extractQuotedAfter (key doc : String) : Option String :=
  match findKey key.data doc.data with
  | some rest => some (String.mk (rest.takeWhile fun c => c ≠ quoteChar))
  | none => none

/-- Claim C6. Serializing a reported-only document with lock state 1 and
client token 123 produces exactly the wire string
`\x7b"state":\x7b"reported":\x7b"lockState":1\x7d\x7d,"clientToken":"000123"\x7d`,
and re-parsing that string extracts `lockState = 1` and the literal
6-character token `000123`. -/
theorem shadowReportedJson_roundTrip :
    shadowReportedJson 1 123 =
      "\x7b\"state\":\x7b\"reported\":\x7b\"lockState\":1\x7d\x7d,\"clientToken\":\"000123\"\x7d"
    ∧ extractNumberAfter "\"lockState\":" (shadowReportedJson 1 123) = some 1
    ∧ extractQuotedAfter "\"clientToken\":\"" (shadowReportedJson 1 123) =
        some "000123"
    ∧ ("000123" : String).length = 6 := by
  refine ⟨rfl, by decide, by decide, rfl⟩

/-! ## LockState mutation sites (frame property) -/

/-- Counterexample to claim C9. The claim allows `LockState` mutations only
by the engine on an accepted delta or by the publish cycle immediately
before reporting a transition back to Closed. But every pass of the publish
cycle performs a further write: it forces `LockState = Open` (value 1)
before publishing the reported-only (Open) document — at concrete inputs the
pass's lock writes are `[Open, Close]`, and the Open write at trace index 2
immediately precedes the reported-only publish at index 3, not a report of
Closed. -/
theorem publishCycle_opens_before_reported_publish :
    lockWrites (publishCurrentStateBody ⟨0, 0, true, true⟩ ⟨0, 0⟩).2 =
      [LOCK_STATE_OPEN, LOCK_STATE_CLOSE]
    ∧ LOCK_STATE_OPEN ≠ LOCK_STATE_CLOSE
    ∧ (publishCurrentStateBody ⟨0, 0, true, true⟩ ⟨0, 0⟩).2.get? 2 =
        some (PubEvent.setLock LOCK_STATE_OPEN)
    ∧ (publishCurrentStateBody ⟨0, 0, true, true⟩ ⟨0, 0⟩).2.get? 3 =
        some (PubEvent.publishDoc (shadowReportedJson LOCK_STATE_OPEN 0)) := by
  exact ⟨rfl, by decide, rfl, rfl⟩

/-- Claim C9 as amended. Within the modeled protocol core, `LockState` is
written only (a) by the publish cycle, which in every pass writes exactly
Open (immediately before the reported-only publish) and then Closed
(immediately before the desired+reported publish), and (b) by the delta
handler's final block, which only ever stores the value its surviving
`pcOutValue` parse produced (the `state.lockState` field of an accepted
delta — or, through the stale-path fallthrough, the re-parsed version
value); any call that leaves the lock state unchanged performed no other
write. -/
theorem lockState_write_sites (env : PubEnv) (sp : PubState)
    (msg : DeltaMsg) (s : ShadowState) :
    lockWrites (publishCurrentStateBody env sp).2 =
      [LOCK_STATE_OPEN, LOCK_STATE_CLOSE]
    ∧ ((prvUpdateDeltaHandler msg s).1.ulCurrentLockState = s.ulCurrentLockState
       ∨ deltaObservedState msg s =
           some (prvUpdateDeltaHandler msg s).1.ulCurrentLockState) := by
  constructor
  · rfl
  · rcases msg with ⟨vj, vf, lf⟩
    cases vj with
    | false => left; simp [prvUpdateDeltaHandler]
    | true =>
      cases vf with
      | none => left; simp [prvUpdateDeltaHandler]
      | some v =>
        by_cases hv : s.ulCurrentVersion < v
        · cases lf with
          | none => left; simp [prvUpdateDeltaHandler, hv]
          | some w =>
            by_cases hw : w = s.ulCurrentLockState
            · left; simp [prvUpdateDeltaHandler, applyNewState, hv, hw]
            · right
              simp [prvUpdateDeltaHandler, deltaObservedState, applyNewState, hv, hw]
        · by_cases hw : v = s.ulCurrentLockState
          · left; subst hw; simp [prvUpdateDeltaHandler, applyNewState, hv]
          · right
            simp [prvUpdateDeltaHandler, deltaObservedState, applyNewState, hv, hw]

/-! ## Connectivity manager (app_network.c) -/

/-- The empty network mask (`AWSIOT_NETWORK_TYPE_NONE`, value 0 in the AWS
network-manager headers consumed by app_network.c). -/
def AWSIOT_NETWORK_TYPE_NONE : Nat := 0

/-- The Wi-Fi network type bit (`AWSIOT_NETWORK_TYPE_WIFI`, value 1 in the
AWS network-manager headers consumed by app_network.c). -/
def AWSIOT_NETWORK_TYPE_WIFI : Nat := 1

/-- Bitwise complement of a `uint32_t` mask (the C `~` operator). -/
def compl32 (x : Nat) : Nat := x ^^^ (2 ^ 32 - 1)

/-- Connectivity states delivered by the network manager
(`AwsIotNetworkState_t`): `enabled` is the Connected state of the spec,
`disabled` / `unknown` its Disconnected / Unknown states. -/
inductive NetworkState where
  | unknown
  | disabled
  | enabled
  deriving DecidableEq

/-- Observable actions of `_onNetworkStateChangeCallback`, in program
order. -/
inductive NetEvent where
  /-- `IotSemaphore_Post(&demoNetworkSemaphore)`. -/
  | semPost
  /-- `AwsIotNetworkManager_DisableNetwork(mask)`. -/
  | disableNetwork (mask : Nat)
  /-- `AwsIotNetworkManager_EnableNetwork(mask)`. -/
  | enableNetwork (mask : Nat)
  /-- `networkConnectedCallback` invoked with the parameters, credentials
  and interface of `network`. -/
  | connectedCb (network : Nat)
  /-- `networkDisconnectedCallback` invoked with the interface of
  `network`. -/
  | disconnectedCb (network : Nat)
  deriving DecidableEq

/-- State of the connectivity manager: the `demoConnectedNetwork` global of
app_network.c, plus the network manager's currently-enabled type mask
(driven by the handler's `EnableNetwork` / `DisableNetwork` calls). -/
structure NetState where
  demoConnectedNetwork : Nat
  enabledMask : Nat
  deriving DecidableEq

/-- Environment read by the handler: `configENABLED_NETWORKS`, the mask
returned by `AwsIotNetworkManager_GetConnectedNetworks()` at recompute time,
the app context's `networkTypes`, and whether the two app callbacks are
non-NULL. -/
structure NetEnv where
  cfgEnabledNetworks : Nat
  connectedMask : Nat
  networkTypes : Nat
  hasConnectedCb : Bool
  hasDisconnectedCb : Bool
  deriving DecidableEq

/-- Model of `_getConnectedNetworkForDemo` (app_network.c lines 49-63):
intersect the manager's connected mask with the app's network types, then
collapse to Wi-Fi if the Wi-Fi bit is present and to NONE otherwise. -/
def getConnectedNetworkForDemo (env : NetEnv) : Nat :=
  let ret := env.connectedMask &&& env.networkTypes
  if ret &&& AWSIOT_NETWORK_TYPE_WIFI = AWSIOT_NETWORK_TYPE_WIFI then
    AWSIOT_NETWORK_TYPE_WIFI
  else
    AWSIOT_NETWORK_TYPE_NONE

/-- Model of `_onNetworkStateChangeCallback` (app_network.c lines 76-147).
Returns the post-state and the trace of manager calls and app callbacks.

* A `Connected` (enabled) event while no network is selected: select this
  network, post the wait semaphore, disable the other configured types
  (`configENABLED_NETWORKS & ~network`, skipped when that mask is empty),
  and invoke the connected callback (when non-NULL) with this network.
* A `Disconnected`/`Unknown` event for the selected network: invoke the
  disconnected callback (when non-NULL), re-enable
  `configENABLED_NETWORKS & ~demoConnectedNetwork` (skipped when empty),
  recompute the connected network, and when one is connected invoke the
  connected callback (when non-NULL) with it.
* Every other event leaves the state untouched and performs no calls. -/
def onNetworkStateChangeCallback (env : NetEnv) (network : Nat)
    (st : NetworkState) (s : NetState) : NetState × List NetEvent :=
  if st = NetworkState.enabled
     ∧ s.demoConnectedNetwork = AWSIOT_NETWORK_TYPE_NONE then
    let disconnectedNetworks := env.cfgEnabledNetworks &&& compl32 network
    let enabledMask1 :=
      if disconnectedNetworks ≠ AWSIOT_NETWORK_TYPE_NONE then
        s.enabledMask &&& compl32 disconnectedNetworks
      else s.enabledMask
    (⟨network, enabledMask1⟩,
     [NetEvent.semPost]
     ++ (if disconnectedNetworks ≠ AWSIOT_NETWORK_TYPE_NONE then
           [NetEvent.disableNetwork disconnectedNetworks] else [])
     ++ (if env.hasConnectedCb then [NetEvent.connectedCb network] else []))
  else if (st = NetworkState.disabled ∨ st = NetworkState.unknown)
          ∧ s.demoConnectedNetwork = network then
    let disconnectedNetworks := env.cfgEnabledNetworks &&& compl32 s.demoConnectedNetwork
    let enabledMask1 :=
      if disconnectedNetworks ≠ AWSIOT_NETWORK_TYPE_NONE then
        s.enabledMask ||| disconnectedNetworks
      else s.enabledMask
    let newActive := getConnectedNetworkForDemo env
    (⟨newActive, enabledMask1⟩,
     (if env.hasDisconnectedCb then [NetEvent.disconnectedCb network] else [])
     ++ (if disconnectedNetworks ≠ AWSIOT_NETWORK_TYPE_NONE then
           [NetEvent.enableNetwork disconnectedNetworks] else [])
     ++ (if newActive ≠ AWSIOT_NETWORK_TYPE_NONE ∧ env.hasConnectedCb then
           [NetEvent.connectedCb newActive] else []))
  else
    (s, [])

/-- Complement of a 32-bit mask at a low bit position. -/
theorem testBit_compl32 (x i : Nat) (hi : i < 32) :
    (compl32 x).testBit i = ! x.testBit i := by
  rw [compl32, Nat.testBit_xor, Nat.testBit_two_pow_sub_one]
  simp [hi]

/-- A mask never intersects a mask that was intersected with its
complement. -/
theorem land_land_compl32 (m e : Nat) (hm : m < 2 ^ 32) :
    m &&& (e &&& compl32 m) = 0 := by
  apply Nat.eq_of_testBit_eq
  intro i
  rw [Nat.testBit_land, Nat.testBit_land, Nat.zero_testBit]
  by_cases hi : i < 32
  · rw [testBit_compl32 m i hi]
    cases m.testBit i <;> simp
  · have hmi : m.testBit i = false :=
      Nat.testBit_lt_two_pow
        (lt_of_lt_of_le hm (Nat.pow_le_pow_right (by norm_num) (Nat.not_lt.mp hi)))
    simp [hmi]

/-- Re-enabling the configured-but-not-active types restores every
configured bit, provided the active network's configured bits were still
enabled. -/
theorem cfg_land_enable (cfg a e : Nat) (hcfg : cfg < 2 ^ 32)
    (hact : cfg &&& a &&& e = cfg &&& a) :
    cfg &&& (e ||| (cfg &&& compl32 a)) = cfg := by
  apply Nat.eq_of_testBit_eq
  intro i
  have hbit : cfg.testBit i = true → a.testBit i = true → e.testBit i = true := by
    intro hc ha
    have h := congrArg (fun x => Nat.testBit x i) hact
    simpa [Nat.testBit_land, hc, ha] using h
  rw [Nat.testBit_land, Nat.testBit_lor, Nat.testBit_land]
  by_cases hi : i < 32
  · rw [testBit_compl32 a i hi]
    revert hbit
    cases cfg.testBit i <;> cases a.testBit i <;> cases e.testBit i <;> simp
  · have hci : cfg.testBit i = false :=
      Nat.testBit_lt_two_pow
        (lt_of_lt_of_le hcfg (Nat.pow_le_pow_right (by norm_num) (Nat.not_lt.mp hi)))
    simp [hci]

/-- When the configured mask is contained in the active network's mask,
every configured bit stays enabled as long as the active network's
configured bits were enabled. -/
theorem cfg_land_of_compl32_eq_zero (cfg a e : Nat) (hcfg : cfg < 2 ^ 32)
    (hact : cfg &&& a &&& e = cfg &&& a)
    (hz : cfg &&& compl32 a = 0) :
    cfg &&& e = cfg := by
  apply Nat.eq_of_testBit_eq
  intro i
  have hbit : cfg.testBit i = true → a.testBit i = true → e.testBit i = true := by
    intro hc ha
    have h := congrArg (fun x => Nat.testBit x i) hact
    simpa [Nat.testBit_land, hc, ha] using h
  have hzbit : cfg.testBit i = true → (compl32 a).testBit i = false := by
    intro hc
    have h := congrArg (fun x => Nat.testBit x i) hz
    simpa [Nat.testBit_land, Nat.zero_testBit, hc] using h
  rw [Nat.testBit_land]
  by_cases hi : i < 32
  · rw [testBit_compl32 a i hi] at hzbit
    revert hbit hzbit
    cases cfg.testBit i <;> cases a.testBit i <;> cases e.testBit i <;> simp
  · have hci : cfg.testBit i = false :=
      Nat.testBit_lt_two_pow
        (lt_of_lt_of_le hcfg (Nat.pow_le_pow_right (by norm_num) (Nat.not_lt.mp hi)))
    simp [hci]

/-- Claim C8. The state-change handler implements the three documented
behaviors, under the assumptions that the configured mask is a `uint32_t`
value and that the event network's configured bits are currently enabled:
(a) a Connected event while no network is active selects that network and
invokes the connected callback with it (after posting the wait semaphore and
disabling the other configured types), and afterwards no other configured
type is left enabled;
(b) a Disconnected/Unknown event for the active network invokes the
disconnected callback, re-enables the other configured types — after which
every configured type is enabled again — recomputes the connected network,
and invokes the connected callback with the recomputed network when there is
one;
(c) every other event changes nothing and emits nothing. -/
theorem onNetworkStateChange_spec (env : NetEnv) (network : Nat)
    (st : NetworkState) (s : NetState)
    (hcfg : env.cfgEnabledNetworks < 2 ^ 32)
    (hact : env.cfgEnabledNetworks &&& network &&& s.enabledMask =
            env.cfgEnabledNetworks &&& network) :
    (onNetworkStateChangeCallback env network st s).1.demoConnectedNetwork =
      (if st = NetworkState.enabled
          ∧ s.demoConnectedNetwork = AWSIOT_NETWORK_TYPE_NONE then network
       else if (st = NetworkState.disabled ∨ st = NetworkState.unknown)
               ∧ s.demoConnectedNetwork = network then
         getConnectedNetworkForDemo env
       else s.demoConnectedNetwork)
    ∧ (onNetworkStateChangeCallback env network st s).2 =
      (if st = NetworkState.enabled
          ∧ s.demoConnectedNetwork = AWSIOT_NETWORK_TYPE_NONE then
         [NetEvent.semPost]
         ++ (if env.cfgEnabledNetworks &&& compl32 network ≠ AWSIOT_NETWORK_TYPE_NONE then
               [NetEvent.disableNetwork (env.cfgEnabledNetworks &&& compl32 network)]
             else [])
         ++ (if env.hasConnectedCb then [NetEvent.connectedCb network] else [])
       else if (st = NetworkState.disabled ∨ st = NetworkState.unknown)
               ∧ s.demoConnectedNetwork = network then
         (if env.hasDisconnectedCb then [NetEvent.disconnectedCb network] else [])
         ++ (if env.cfgEnabledNetworks &&& compl32 network ≠ AWSIOT_NETWORK_TYPE_NONE then
               [NetEvent.enableNetwork (env.cfgEnabledNetworks &&& compl32 network)]
             else [])
         ++ (if getConnectedNetworkForDemo env ≠ AWSIOT_NETWORK_TYPE_NONE
                ∧ env.hasConnectedCb then
               [NetEvent.connectedCb (getConnectedNetworkForDemo env)]
             else [])
       else [])
    ∧ (if st = NetworkState.enabled
          ∧ s.demoConnectedNetwork = AWSIOT_NETWORK_TYPE_NONE then
         (env.cfgEnabledNetworks &&& compl32 network)
           &&& (onNetworkStateChangeCallback env network st s).1.enabledMask
       else 0) = 0
    ∧ (if (st = NetworkState.disabled ∨ st = NetworkState.unknown)
          ∧ s.demoConnectedNetwork = network then
         env.cfgEnabledNetworks
           &&& (onNetworkStateChangeCallback env network st s).1.enabledMask
       else env.cfgEnabledNetworks) = env.cfgEnabledNetworks := by
  by_cases h1 : st = NetworkState.enabled
      ∧ s.demoConnectedNetwork = AWSIOT_NETWORK_TYPE_NONE
  · obtain ⟨hst, hnone⟩ := h1
    have hd : ¬ ((st = NetworkState.disabled ∨ st = NetworkState.unknown)
        ∧ s.demoConnectedNetwork = network) := by
      rintro ⟨h | h, _⟩ <;> rw [hst] at h <;> exact NetworkState.noConfusion h
    refine ⟨?_, ?_, ?_, ?_⟩
    · simp [onNetworkStateChangeCallback, hst, hnone]
    · simp [onNetworkStateChangeCallback, hst, hnone]
    · simp only [hst, hnone, and_self, if_true]
      by_cases hm : env.cfgEnabledNetworks &&& compl32 network = AWSIOT_NETWORK_TYPE_NONE
      · rw [hm]
        exact Nat.zero_and _
      · have hmlt : env.cfgEnabledNetworks &&& compl32 network < 2 ^ 32 :=
          lt_of_le_of_lt Nat.and_le_left hcfg
        simp [onNetworkStateChangeCallback, hst, hnone, hm,
          land_land_compl32 _ _ hmlt]
    · simp [hd]
  · by_cases h2 : (st = NetworkState.disabled ∨ st = NetworkState.unknown)
        ∧ s.demoConnectedNetwork = network
    · obtain ⟨hst, hdn⟩ := h2
      refine ⟨?_, ?_, ?_, ?_⟩
      · rcases hst with h | h <;> simp [onNetworkStateChangeCallback, h, hdn]
      · rcases hst with h | h <;> simp [onNetworkStateChangeCallback, h, hdn]
      · rw [if_neg h1]
      · rw [if_pos ⟨hst, hdn⟩]
        simp only [onNetworkStateChangeCallback]
        rw [if_neg h1,
          if_pos (show (st = NetworkState.disabled ∨ st = NetworkState.unknown)
            ∧ s.demoConnectedNetwork = network from ⟨hst, hdn⟩), hdn]
        by_cases hm : env.cfgEnabledNetworks &&& compl32 network = AWSIOT_NETWORK_TYPE_NONE
        · rw [if_neg (not_not_intro hm)]
          exact cfg_land_of_compl32_eq_zero _ _ _ hcfg hact hm
        · rw [if_pos hm]
          exact cfg_land_enable _ _ _ hcfg hact
    · refine ⟨?_, ?_, ?_, ?_⟩
      · simp [onNetworkStateChangeCallback, h1, h2]
      · simp [onNetworkStateChangeCallback, h1, h2]
      · rw [if_neg h1]
      · rw [if_neg h2]

/-- Witness for C8: the spec's failover scenario with configured mask 3
(Wi-Fi plus one other type), the other type (bit 2) active and everything
enabled. Its Disconnected event invokes the disconnected callback,
re-enables Wi-Fi, recomputes Wi-Fi as the new active network and invokes the
connected callback with it; afterwards all configured types are enabled. -/
theorem onNetworkStateChange_spec_witness :
    (onNetworkStateChangeCallback ⟨3, 1, 1, true, true⟩ 2 NetworkState.disabled
        ⟨2, 3⟩).1 = ⟨1, 3⟩
    ∧ (onNetworkStateChangeCallback ⟨3, 1, 1, true, true⟩ 2 NetworkState.disabled
        ⟨2, 3⟩).2 =
      [NetEvent.disconnectedCb 2, NetEvent.enableNetwork 1, NetEvent.connectedCb 1]
    ∧ (3 : Nat) &&&
        (onNetworkStateChangeCallback ⟨3, 1, 1, true, true⟩ 2 NetworkState.disabled
          ⟨2, 3⟩).1.enabledMask = 3 := by
  have h := onNetworkStateChange_spec ⟨3, 1, 1, true, true⟩ 2 NetworkState.disabled
    ⟨2, 3⟩ (by norm_num) (by decide)
  obtain ⟨ha, hb, _, hd⟩ := h
  refine ⟨?_, ?_, ?_⟩
  · decide
  · decide
  · simpa using hd
